import Mathlib

/-! Verification development for the writable-signal implementation (signal.ts,
src/unnamed/part_003) and the injection-context bridge (contextual.ts,
src/unnamed/part_002) of the reactive core.

The signal node is embedded as an explicit state record; the observable calls a
signal operation makes (producerMayHaveChanged, the post-set hook, invocations
of caller-supplied updater/mutator functions, producerAccessed) are recorded in
an event trace so that claims about "calls f exactly once" are statable. -/

namespace AngularCore

/-- Observable calls emitted by a signal operation, in program order. -/
inductive SignalEvent where
  | producerMayHaveChangedEv
  | postSignalSetEv
  | updaterInvokedEv
  | mutatorInvokedEv
  | producerAccessedEv
  deriving DecidableEq, Repr

/-- Error thrown by throwInvalidWriteToSignalError (errors.ts). -/
inductive SignalError where
  | invalidWriteToSignal
  deriving DecidableEq, Repr

/-- The readonly view produced by createSignalFromFunction(this, () => this.signal()).
Modelled from the spec: api.ts's createSignalFromFunction is not under src/; per the
spec it returns a capability-restricted view with the "same underlying identity
(not a copy)", so the handle is embedded as a reference to the node it reads. -/
structure ReadonlyHandle where
  node : Nat
  deriving DecidableEq, Repr

/-- State of one WritableSignalImpl node: its value, its valueVersion, the node's
identity, the cached readonlySignal, and a count of readonly-view creations
(used to state that the view is created at most once). -/
structure SignalState (T : Type) where
  value : T
  valueVersion : Nat
  nodeId : Nat
  readonlySignal : Option ReadonlyHandle
  readonlyCreations : Nat
  deriving DecidableEq, Repr

/-- Ambient state a write runs under: whether a consumer is currently executing
(and, if so, its consumerAllowSignalWrites flag), and whether the module-level
postSignalSetFn hook is installed. -/
structure WriteEnv where
  activeConsumerAllowWrites : Option Bool
  postSignalSetFn : Bool
  deriving DecidableEq, Repr

/-- Modelled from the spec: ReactiveNode's producerUpdatesAllowed getter lives in
graph.ts, which is not under src/. Per the spec, a write "fails ... if called
while any consumer is currently executing a read-only computation pass unless
that consumer has explicitly opted into allowing writes during its own
evaluation"; so updates are allowed when no consumer is executing or the
executing consumer allows signal writes. -/
def producerUpdatesAllowed (env : WriteEnv) : Bool :=
  match env.activeConsumerAllowWrites with
  | none => true
  | some b => b

/-- The events produced by the statement postSignalSetFn?.() — one call to the
hook when it is installed, nothing otherwise. -/
def postSignalSetEvents (env : WriteEnv) : List SignalEvent :=
  if env.postSignalSetFn then [SignalEvent.postSignalSetEv] else []

/-- Result of one write operation: the error thrown (if any), the node state
after the operation, and the trace of observable calls made before completion
or before the throw. -/
structure WriteOutcome (T : Type) where
  err : Option SignalError
  state : SignalState T
  events : List SignalEvent
  deriving DecidableEq, Repr

namespace WritableSignalImpl

/-- WritableSignalImpl.set (signal.ts lines 100-111): throw invalid-write if
producer updates are not allowed; otherwise, if the value is not equal to the
incoming one, store it, bump valueVersion, call producerMayHaveChanged and the
post-set hook; otherwise do nothing. -/
def set {T : Type} (env : WriteEnv) (equal : T → T → Bool) (s : SignalState T)
    (newValue : T) : WriteOutcome T :=
  if !(producerUpdatesAllowed env) then
    { err := some SignalError.invalidWriteToSignal, state := s, events := [] }
  else if !(equal s.value newValue) then
    { err := none,
      state := { s with value := newValue, valueVersion := s.valueVersion + 1 },
      events := SignalEvent.producerMayHaveChangedEv :: postSignalSetEvents env }
  else
    { err := none, state := s, events := [] }

/-- WritableSignalImpl.update (signal.ts lines 124-129): throw invalid-write if
producer updates are not allowed; otherwise evaluate updater on the current
value and call set on the result. -/
def update {T : Type} (env : WriteEnv) (equal : T → T → Bool) (s : SignalState T)
    (updater : T → T) : WriteOutcome T :=
  if !(producerUpdatesAllowed env) then
    { err := some SignalError.invalidWriteToSignal, state := s, events := [] }
  else
    let r := set env equal s (updater s.value)
    { r with events := SignalEvent.updaterInvokedEv :: r.events }

/-- WritableSignalImpl.mutate (signal.ts lines 137-147): throw invalid-write if
producer updates are not allowed; otherwise invoke the mutator on the current
value (in-place mutation embedded as value replacement by mutator's result),
bump valueVersion unconditionally (mutate bypasses equality checks), call
producerMayHaveChanged and the post-set hook. -/
def mutate {T : Type} (env : WriteEnv) (s : SignalState T)
    (mutator : T → T) : WriteOutcome T :=
  if !(producerUpdatesAllowed env) then
    { err := some SignalError.invalidWriteToSignal, state := s, events := [] }
  else
    { err := none,
      state := { s with value := mutator s.value, valueVersion := s.valueVersion + 1 },
      events := SignalEvent.mutatorInvokedEv :: SignalEvent.producerMayHaveChangedEv ::
        postSignalSetEvents env }

/-- WritableSignalImpl.signal (signal.ts lines 156-159): call producerAccessed
(dependency registration in graph.ts, observable here as a trace event) and
return the current value. -/
def signal {T : Type} (s : SignalState T) : T × List SignalEvent :=
  (s.value, [SignalEvent.producerAccessedEv])

/-- WritableSignalImpl.asReadonly (signal.ts lines 149-154): if the readonly
view was not created yet, create it (a handle onto this very node, via
createSignalFromFunction(this, () => this.signal())) and cache it; in either
case return the cached view. -/
def asReadonly {T : Type} (s : SignalState T) : ReadonlyHandle × SignalState T :=
  match s.readonlySignal with
  | some h => (h, s)
  | none =>
    let h : ReadonlyHandle := { node := s.nodeId }
    (h, { s with readonlySignal := some h,
                 readonlyCreations := s.readonlyCreations + 1 })

end WritableSignalImpl

/-- Reading through a readonly handle evaluates the captured closure
() => this.signal() against the node's current state; it is defined only when
the handle references that node (the closure captures this, not a copy of the
value). -/
def readonlyRead {T : Type} (h : ReadonlyHandle) (s : SignalState T) :
    Option (T × List SignalEvent) :=
  if h.node = s.nodeId then some (WritableSignalImpl.signal s) else none

/-- Consistency of a signal state: a cached readonly view, when present, points
at this node. This holds for every state the implementation can produce: the
view is only ever created by asReadonly on the node itself. -/
def SignalState.readonlyConsistent {T : Type} (s : SignalState T) : Bool :=
  match s.readonlySignal with
  | none => true
  | some h => h.node == s.nodeId

/-- The program s.set(fn(current)) that the spec likens update to (the
refinement right-hand side, written from the spec's words): the argument
fn(current) is evaluated first — one invocation of fn — and then set runs on
the result. -/
def setOfUpdaterOnCurrent {T : Type} (env : WriteEnv) (equal : T → T → Bool)
    (s : SignalState T) (updater : T → T) : WriteOutcome T :=
  let r := WritableSignalImpl.set env equal s (updater s.value)
  { r with events := SignalEvent.updaterInvokedEv :: r.events }

/- Concrete states and environments used by witnesses and counterexamples. -/

def sampleEnv : WriteEnv := { activeConsumerAllowWrites := none, postSignalSetFn := false }

def sampleEnvBlocked : WriteEnv :=
  { activeConsumerAllowWrites := some false, postSignalSetFn := false }

def sampleState : SignalState Nat :=
  { value := 5, valueVersion := 0, nodeId := 0, readonlySignal := none, readonlyCreations := 0 }

/-! Injection-context bridge (contextual.ts, src/unnamed/part_002). -/

/-- An injector handle. The isR3 flag embeds the instanceof R3Injector test of
contextual.ts line 43; destroyed is the R3Injector destruction flag consulted
by assertNotDestroyed (R3Injector is not under src/; per the call site it
rejects a destroyed injector before anything else runs). -/
structure Injector where
  id : Nat
  isR3 : Bool
  destroyed : Bool
  deriving DecidableEq, Repr

/-- The process-wide injection-context slots: the current injector installed by
setCurrentInjector and the inject-override implementation installed by
setInjectImplementation (an implementation is identified by a number). -/
structure InjectCtx where
  currentInjector : Option Injector
  injectImplementation : Option Nat
  deriving DecidableEq, Repr

/-- Modelled from the spec: setCurrentInjector (injector_compatibility.ts is not
under src/) swaps the process-wide "current resolver" slot and returns the
previously installed value. -/
def setCurrentInjector (inj : Option Injector) (ctx : InjectCtx) :
    Option Injector × InjectCtx :=
  (ctx.currentInjector, { ctx with currentInjector := inj })

/-- Modelled from the spec: setInjectImplementation (inject_switch.ts is not
under src/) swaps the process-wide inject-override slot and returns the
previously installed value. -/
def setInjectImplementation (impl : Option Nat) (ctx : InjectCtx) :
    Option Nat × InjectCtx :=
  (ctx.injectImplementation, { ctx with injectImplementation := impl })

/-- Modelled from the spec: getInjectImplementation (inject_switch.ts is not
under src/) reads the inject-override slot. -/
def getInjectImplementation (ctx : InjectCtx) : Option Nat :=
  ctx.injectImplementation

/-- Modelled from the spec: getCurrentInjector (injector_compatibility.ts is not
under src/) reads the current-resolver slot. -/
def getCurrentInjector (ctx : InjectCtx) : Option Injector :=
  ctx.currentInjector

/-- How a runInInjectionContext call can end: the injector-destroyed error from
assertNotDestroyed, an error thrown by the user function (rethrown), or the
user function's return value. -/
inductive RunError (ε : Type) where
  | injectorDestroyed
  | user (e : ε)
  deriving DecidableEq, Repr

/-- Rethrowing: a user result propagates unchanged; a user error is rethrown. -/
def liftUserResult {ε ρ : Type} : Except ε ρ → Except (RunError ε) ρ
  | Except.ok v => Except.ok v
  | Except.error e => Except.error (RunError.user e)

/-- runInInjectionContext (contextual.ts lines 42-55): assert the injector is
not a destroyed R3Injector; save the prior injector and the prior inject
implementation while installing the new injector and clearing the override;
run fn; restore both slots on every exit path (the try/finally), then return
fn's result or rethrow its error. A user function takes the context it
observes and returns its result together with the context as it left it. -/
def runInInjectionContext {ε ρ : Type} (injector : Injector)
    (fn : InjectCtx → Except ε ρ × InjectCtx) (ctx : InjectCtx) :
    Except (RunError ε) ρ × InjectCtx :=
  if injector.isR3 && injector.destroyed then
    (Except.error RunError.injectorDestroyed, ctx)
  else
    let step1 := setCurrentInjector (some injector) ctx
    let prevInjector := step1.1
    let step2 := setInjectImplementation none step1.2
    let previousInjectImplementation := step2.1
    let run := fn step2.2
    let step3 := setCurrentInjector prevInjector run.2
    let step4 := setInjectImplementation previousInjectImplementation step3.2
    (liftUserResult run.1, step4.2)

/-- Angular's runtime error code NG0203. -/
def MISSING_INJECTION_CONTEXT : Nat := 203

/-- The RuntimeError thrown by assertInInjectionContext: the code and, when dev
mode is on, a message; in production the message argument is the boolean false
(contextual.ts line 74), embedded as none. -/
structure RuntimeErr where
  code : Nat
  message : Option String
  deriving DecidableEq, Repr

/-- The fixed part of the missing-injection-context message, appended after the
name of the asserting function (contextual.ts line 76). -/
def injectionContextMessageTail : String :=
  "() can only be used within an injection context such as a constructor, a factory function, a field initializer, or a function used with runInInjectionContext"

/-- assertInInjectionContext (contextual.ts lines 68-78): when neither an
inject-override implementation nor a current injector is installed, throw the
missing-injection-context RuntimeError; its message is built from the asserting
function's name in dev mode and omitted (ngDevMode falsy) in production.
Returns the thrown error, or none when the assertion passes. -/
def assertInInjectionContext (ngDevMode : Bool) (debugFnName : String)
    (ctx : InjectCtx) : Option RuntimeErr :=
  if (getInjectImplementation ctx).isNone && (getCurrentInjector ctx).isNone then
    some { code := MISSING_INJECTION_CONTEXT,
           message := if ngDevMode then some (debugFnName ++ injectionContextMessageTail)
                      else none }
  else
    none

/- Concrete contexts and injectors used by witnesses and counterexamples. -/

def emptyCtx : InjectCtx := { currentInjector := none, injectImplementation := none }

def sampleCtx : InjectCtx := { currentInjector := none, injectImplementation := some 4 }

def sampleInjector : Injector := { id := 0, isR3 := true, destroyed := false }

def destroyedInjector : Injector := { id := 1, isR3 := true, destroyed := true }

/-! Claim theorems. -/

/-- C1: for every writable signal s and value v, if the signal's equality
function applied to the current value and v returns true, then s.set(v) leaves
the signal's state (in particular its value) unchanged, does not increment the
signal's version, and does not call producerMayHaveChanged — whatever the
ambient write permissions are. -/
theorem set_equal_noop {T : Type} (env : WriteEnv) (equal : T → T → Bool)
    (s : SignalState T) (v : T) (h : equal s.value v = true) :
    (WritableSignalImpl.set env equal s v).state = s ∧
    (WritableSignalImpl.set env equal s v).state.value = s.value ∧
    (WritableSignalImpl.set env equal s v).state.valueVersion = s.valueVersion ∧
    (WritableSignalImpl.set env equal s v).events.count
        SignalEvent.producerMayHaveChangedEv = 0 := by
  cases hA : producerUpdatesAllowed env <;>
    simp [WritableSignalImpl.set, hA, h]

/-- Witness for C1 at a concrete signal: setting the value 5 on a signal whose
current value is 5 (default equality) changes nothing and notifies nobody. -/
theorem set_equal_noop_witness :
    (WritableSignalImpl.set sampleEnv Nat.beq sampleState 5).state = sampleState ∧
    (WritableSignalImpl.set sampleEnv Nat.beq sampleState 5).state.value = sampleState.value ∧
    (WritableSignalImpl.set sampleEnv Nat.beq sampleState 5).state.valueVersion
        = sampleState.valueVersion ∧
    (WritableSignalImpl.set sampleEnv Nat.beq sampleState 5).events.count
        SignalEvent.producerMayHaveChangedEv = 0 :=
  set_equal_noop sampleEnv Nat.beq sampleState 5 (by decide)

/-- C2: for every writable signal s and value v, if writes are allowed and the
equality function applied to the current value and v returns false, then
s.set(v) succeeds, replaces the stored value with v, increments the version by
exactly one, and calls producerMayHaveChanged exactly once. -/
theorem set_unequal_updates {T : Type} (env : WriteEnv) (equal : T → T → Bool)
    (s : SignalState T) (v : T) (hA : producerUpdatesAllowed env = true)
    (hE : equal s.value v = false) :
    (WritableSignalImpl.set env equal s v).err = none ∧
    (WritableSignalImpl.set env equal s v).state.value = v ∧
    (WritableSignalImpl.set env equal s v).state.valueVersion = s.valueVersion + 1 ∧
    (WritableSignalImpl.set env equal s v).events.count
        SignalEvent.producerMayHaveChangedEv = 1 := by
  cases hP : env.postSignalSetFn <;>
    simp [WritableSignalImpl.set, hA, hE, postSignalSetEvents, hP, List.count_cons]

/-- Witness for C2: setting 7 on a signal at 5 stores 7, bumps the version from
0 to 1 and notifies dependents once. -/
theorem set_unequal_updates_witness :
    (WritableSignalImpl.set sampleEnv Nat.beq sampleState 7).err = none ∧
    (WritableSignalImpl.set sampleEnv Nat.beq sampleState 7).state.value = 7 ∧
    (WritableSignalImpl.set sampleEnv Nat.beq sampleState 7).state.valueVersion
        = sampleState.valueVersion + 1 ∧
    (WritableSignalImpl.set sampleEnv Nat.beq sampleState 7).events.count
        SignalEvent.producerMayHaveChangedEv = 1 :=
  set_unequal_updates sampleEnv Nat.beq sampleState 7 (by decide) (by decide)

/-- C3: calling set, update, or mutate while a consumer that has not opted into
allowing writes is currently executing raises the invalid-write error
synchronously to the caller. -/
theorem write_in_readonly_consumer_throws {T : Type} (env : WriteEnv)
    (equal : T → T → Bool) (s : SignalState T) (v : T) (fn g : T → T)
    (h : env.activeConsumerAllowWrites = some false) :
    (WritableSignalImpl.set env equal s v).err = some SignalError.invalidWriteToSignal ∧
    (WritableSignalImpl.update env equal s fn).err = some SignalError.invalidWriteToSignal ∧
    (WritableSignalImpl.mutate env s g).err = some SignalError.invalidWriteToSignal := by
  have hA : producerUpdatesAllowed env = false := by
    simp [producerUpdatesAllowed, h]
  simp [WritableSignalImpl.set, WritableSignalImpl.update, WritableSignalImpl.mutate, hA]

/-- Witness for C3: under a read-only consumer, each of the three writes on a
concrete signal throws the invalid-write error. -/
theorem write_in_readonly_consumer_throws_witness :
    (WritableSignalImpl.set sampleEnvBlocked Nat.beq sampleState 7).err
        = some SignalError.invalidWriteToSignal ∧
    (WritableSignalImpl.update sampleEnvBlocked Nat.beq sampleState Nat.succ).err
        = some SignalError.invalidWriteToSignal ∧
    (WritableSignalImpl.mutate sampleEnvBlocked sampleState Nat.succ).err
        = some SignalError.invalidWriteToSignal :=
  write_in_readonly_consumer_throws sampleEnvBlocked Nat.beq sampleState 7
    Nat.succ Nat.succ (by decide)

/-- C7: when writes are allowed, s.mutate(fn) invokes fn on the current value
(exactly once), then always increments the version and calls
producerMayHaveChanged exactly once — no equality check is applied (the
statement holds for every mutator, including one that leaves the value
unchanged). -/
theorem mutate_always_propagates {T : Type} (env : WriteEnv) (s : SignalState T)
    (fn : T → T) (hA : producerUpdatesAllowed env = true) :
    (WritableSignalImpl.mutate env s fn).err = none ∧
    (WritableSignalImpl.mutate env s fn).state.value = fn s.value ∧
    (WritableSignalImpl.mutate env s fn).state.valueVersion = s.valueVersion + 1 ∧
    (WritableSignalImpl.mutate env s fn).events.count
        SignalEvent.producerMayHaveChangedEv = 1 ∧
    (WritableSignalImpl.mutate env s fn).events.count
        SignalEvent.mutatorInvokedEv = 1 := by
  cases hP : env.postSignalSetFn <;>
    simp [WritableSignalImpl.mutate, hA, postSignalSetEvents, hP, List.count_cons]

/-- Witness for C7 with the identity mutator: the value stays 5, yet the
version still advances and dependents are still notified once. -/
theorem mutate_always_propagates_witness :
    (WritableSignalImpl.mutate sampleEnv sampleState id).err = none ∧
    (WritableSignalImpl.mutate sampleEnv sampleState id).state.value = id sampleState.value ∧
    (WritableSignalImpl.mutate sampleEnv sampleState id).state.valueVersion
        = sampleState.valueVersion + 1 ∧
    (WritableSignalImpl.mutate sampleEnv sampleState id).events.count
        SignalEvent.producerMayHaveChangedEv = 1 ∧
    (WritableSignalImpl.mutate sampleEnv sampleState id).events.count
        SignalEvent.mutatorInvokedEv = 1 :=
  mutate_always_propagates sampleEnv sampleState id (by decide)

/-- C9: when producer updates are not allowed, set, update and mutate all throw
before performing any mutation: the outcome carries the invalid-write error,
the state is exactly the pre-call state (value and version unchanged), and the
event trace is empty — producerMayHaveChanged is not called and the
caller-supplied updater or mutator is never invoked. -/
theorem disallowed_write_no_mutation {T : Type} (env : WriteEnv)
    (equal : T → T → Bool) (s : SignalState T) (v : T) (fn g : T → T)
    (h : producerUpdatesAllowed env = false) :
    WritableSignalImpl.set env equal s v
        = { err := some SignalError.invalidWriteToSignal, state := s, events := [] } ∧
    WritableSignalImpl.update env equal s fn
        = { err := some SignalError.invalidWriteToSignal, state := s, events := [] } ∧
    WritableSignalImpl.mutate env s g
        = { err := some SignalError.invalidWriteToSignal, state := s, events := [] } := by
  simp [WritableSignalImpl.set, WritableSignalImpl.update, WritableSignalImpl.mutate, h]

/-- Witness for C9 on a concrete blocked environment and signal. -/
theorem disallowed_write_no_mutation_witness :
    WritableSignalImpl.set sampleEnvBlocked Nat.beq sampleState 7
        = { err := some SignalError.invalidWriteToSignal, state := sampleState, events := [] } ∧
    WritableSignalImpl.update sampleEnvBlocked Nat.beq sampleState Nat.succ
        = { err := some SignalError.invalidWriteToSignal, state := sampleState, events := [] } ∧
    WritableSignalImpl.mutate sampleEnvBlocked sampleState Nat.succ
        = { err := some SignalError.invalidWriteToSignal, state := sampleState, events := [] } :=
  disallowed_write_no_mutation sampleEnvBlocked Nat.beq sampleState 7
    Nat.succ Nat.succ (by decide)

/-- C6 counterexample: update(fn) is not observably equivalent to
set(fn(current)) in every situation. When producer updates are disallowed,
update throws before ever invoking fn, while the program set(fn(current))
evaluates its argument — invoking fn once — before set throws; the two runs
differ in their invocations of fn. -/
theorem update_claim_cex :
    WritableSignalImpl.update sampleEnvBlocked Nat.beq sampleState Nat.succ
      ≠ setOfUpdaterOnCurrent sampleEnvBlocked Nat.beq sampleState Nat.succ := by
  decide

/-- C6 (amended): when producer updates are allowed, s.update(fn) is observably
equivalent to s.set(fn(current)) — identical error, final state (value and
version) and event trace, including the invocations of fn and the calls to
producerMayHaveChanged. -/
theorem update_equiv_setOfCurrent {T : Type} (env : WriteEnv)
    (equal : T → T → Bool) (s : SignalState T) (fn : T → T)
    (hA : producerUpdatesAllowed env = true) :
    WritableSignalImpl.update env equal s fn = setOfUpdaterOnCurrent env equal s fn := by
  simp [WritableSignalImpl.update, setOfUpdaterOnCurrent, hA]

/-- Witness for the amended C6 at a concrete signal and updater. -/
theorem update_equiv_setOfCurrent_witness :
    WritableSignalImpl.update sampleEnv Nat.beq sampleState Nat.succ
      = setOfUpdaterOnCurrent sampleEnv Nat.beq sampleState Nat.succ :=
  update_equiv_setOfCurrent sampleEnv Nat.beq sampleState Nat.succ (by decide)

/-- C8: the readonly view returned by asReadonly reads the same underlying node
rather than a copy: on any consistent signal state, after a successful set(v)
performed after the view was obtained, reading through the previously obtained
view yields v (with the usual producerAccessed registration). -/
theorem asReadonly_reads_same_node {T : Type} (env : WriteEnv)
    (equal : T → T → Bool) (s : SignalState T) (v : T)
    (hW : s.readonlyConsistent = true)
    (hA : producerUpdatesAllowed env = true)
    (hE : equal s.value v = false) :
    (WritableSignalImpl.set env equal (WritableSignalImpl.asReadonly s).2 v).err = none ∧
    readonlyRead (WritableSignalImpl.asReadonly s).1
        (WritableSignalImpl.set env equal (WritableSignalImpl.asReadonly s).2 v).state
      = some (v, [SignalEvent.producerAccessedEv]) := by
  cases s with
  | mk value version nodeId ro creations =>
    cases ro with
    | none =>
      simp_all [WritableSignalImpl.asReadonly, WritableSignalImpl.set, readonlyRead,
        WritableSignalImpl.signal]
    | some h =>
      have hn : h.node = nodeId := by
        simpa [SignalState.readonlyConsistent] using hW
      simp_all [WritableSignalImpl.asReadonly, WritableSignalImpl.set, readonlyRead,
        WritableSignalImpl.signal]

/-- Witness for C8: obtain the readonly view of a concrete signal at 5, set 7
through the writable side, and read 7 back through the view. -/
theorem asReadonly_reads_same_node_witness :
    (WritableSignalImpl.set sampleEnv Nat.beq
        (WritableSignalImpl.asReadonly sampleState).2 7).err = none ∧
    readonlyRead (WritableSignalImpl.asReadonly sampleState).1
        (WritableSignalImpl.set sampleEnv Nat.beq
          (WritableSignalImpl.asReadonly sampleState).2 7).state
      = some (7, [SignalEvent.producerAccessedEv]) :=
  asReadonly_reads_same_node sampleEnv Nat.beq sampleState 7
    (by decide) (by decide) (by decide)

/-- C10: asReadonly is idempotent at the identity level — a second call returns
the very same handle and leaves the state untouched (in particular no second
view creation, readonlyCreations does not advance); the cached handle also
survives writes: asReadonly after a set still returns the original handle. -/
theorem asReadonly_idempotent {T : Type} (s : SignalState T) :
    (WritableSignalImpl.asReadonly (WritableSignalImpl.asReadonly s).2).1
        = (WritableSignalImpl.asReadonly s).1 ∧
    (WritableSignalImpl.asReadonly (WritableSignalImpl.asReadonly s).2).2
        = (WritableSignalImpl.asReadonly s).2 ∧
    ∀ (env : WriteEnv) (equal : T → T → Bool) (v : T),
      (WritableSignalImpl.asReadonly
          (WritableSignalImpl.set env equal (WritableSignalImpl.asReadonly s).2 v).state).1
        = (WritableSignalImpl.asReadonly s).1 := by
  cases s with
  | mk value version nodeId ro creations =>
    cases ro with
    | some h =>
      refine ⟨rfl, rfl, ?_⟩
      intro env equal v
      cases hA : producerUpdatesAllowed env <;> cases hE : equal value v <;>
        simp [WritableSignalImpl.asReadonly, WritableSignalImpl.set, hA, hE]
    | none =>
      refine ⟨rfl, rfl, ?_⟩
      intro env equal v
      cases hA : producerUpdatesAllowed env <;> cases hE : equal value v <;>
        simp [WritableSignalImpl.asReadonly, WritableSignalImpl.set, hA, hE]

/-- C4 counterexample: runInInjectionContext does not invoke fn and return its
result for every resolver — on a destroyed R3Injector it throws the
injector-destroyed error before fn runs, so the call's outcome is not fn's
result. -/
theorem runInInjectionContext_claim_cex :
    (runInInjectionContext destroyedInjector
        (fun c => ((Except.ok 0 : Except Unit Nat), c)) emptyCtx).1
      = Except.error RunError.injectorDestroyed ∧
    (runInInjectionContext destroyedInjector
        (fun c => ((Except.ok 0 : Except Unit Nat), c)) emptyCtx).1
      ≠ Except.ok 0 := by
  constructor
  · rfl
  · intro h
    exact Except.noConfusion h

/-- C4 (amended): for every resolver that is not a destroyed R3Injector,
runInInjectionContext invokes fn (on the context with the new resolver
installed and the inject override cleared) and returns fn's result or rethrows
fn's error, while restoring the previously installed resolver and the
previously installed inject-override state exactly, on both exit paths — even
if fn itself scribbled over the context slots, nothing leaks across the call
boundary. -/
theorem runInInjectionContext_restores {ε ρ : Type} (injector : Injector)
    (fn : InjectCtx → Except ε ρ × InjectCtx) (ctx : InjectCtx)
    (h : (injector.isR3 && injector.destroyed) = false) :
    (runInInjectionContext injector fn ctx).2 = ctx ∧
    (runInInjectionContext injector fn ctx).1 =
      liftUserResult
        (fn { currentInjector := some injector, injectImplementation := none }).1 := by
  cases ctx with
  | mk ci ii =>
    simp [runInInjectionContext, setCurrentInjector, setInjectImplementation, h]

/-- Witness for the amended C4: running a throwing user function under a live
injector restores the prior context (which had an inject override installed)
and rethrows the user error. -/
theorem runInInjectionContext_restores_witness :
    (runInInjectionContext sampleInjector
        (fun c => ((Except.error () : Except Unit Nat), c)) sampleCtx).2 = sampleCtx ∧
    (runInInjectionContext sampleInjector
        (fun c => ((Except.error () : Except Unit Nat), c)) sampleCtx).1 =
      liftUserResult
        ((fun (c : InjectCtx) => ((Except.error () : Except Unit Nat), c))
          { currentInjector := some sampleInjector, injectImplementation := none }).1 :=
  runInInjectionContext_restores sampleInjector
    (fun c => ((Except.error () : Except Unit Nat), c)) sampleCtx (by decide)

/-- C5 counterexample: outside dev mode (ngDevMode falsy, as in production
builds) the missing-injection-context error is thrown with no message at all —
it does not identify the offending call site. -/
theorem assertInInjectionContext_claim_cex :
    assertInInjectionContext false "inject" emptyCtx
      = some { code := MISSING_INJECTION_CONTEXT, message := none } ∧
    assertInInjectionContext false "inject" emptyCtx
      ≠ some { code := MISSING_INJECTION_CONTEXT,
               message := some ("inject" ++ injectionContextMessageTail) } := by
  constructor
  · rfl
  · decide

/-- C5 (amended): assertInInjectionContext throws the missing-injection-context
error if and only if neither an inject-override implementation nor a current
injector is installed; the thrown error carries the missing-injection-context
code, and in dev mode its message names the offending call site (in production
the message is omitted). -/
theorem assertInInjectionContext_spec (ngDevMode : Bool) (debugFnName : String)
    (ctx : InjectCtx) :
    ((assertInInjectionContext ngDevMode debugFnName ctx).isSome
        ↔ (getInjectImplementation ctx = none ∧ getCurrentInjector ctx = none)) ∧
    ∀ e, assertInInjectionContext ngDevMode debugFnName ctx = some e →
      e.code = MISSING_INJECTION_CONTEXT ∧
      (ngDevMode = true → e.message = some (debugFnName ++ injectionContextMessageTail)) := by
  constructor
  · cases hI : ctx.injectImplementation <;> cases hC : ctx.currentInjector <;>
      simp [assertInInjectionContext, getInjectImplementation, getCurrentInjector, hI, hC]
  · intro e he
    cases hI : ctx.injectImplementation with
    | some impl =>
      simp [assertInInjectionContext, getInjectImplementation, hI] at he
    | none =>
      cases hC : ctx.currentInjector with
      | some i =>
        simp [assertInInjectionContext, getInjectImplementation, getCurrentInjector,
          hI, hC] at he
      | none =>
        cases hD : ngDevMode <;>
          simp [assertInInjectionContext, getInjectImplementation, getCurrentInjector,
            hI, hC, hD] at he <;>
          simp [← he]

/-- Witness for the amended C5: in dev mode with an empty context, the error
returned for the function name "inject" carries the code and the full
call-site-identifying message. -/
theorem assertInInjectionContext_spec_witness :
    ({ code := MISSING_INJECTION_CONTEXT,
       message := some ("inject" ++ injectionContextMessageTail) } : RuntimeErr).code
        = MISSING_INJECTION_CONTEXT ∧
    (true = true →
      ({ code := MISSING_INJECTION_CONTEXT,
         message := some ("inject" ++ injectionContextMessageTail) } : RuntimeErr).message
        = some ("inject" ++ injectionContextMessageTail)) :=
  (assertInInjectionContext_spec true "inject" emptyCtx).2
    { code := MISSING_INJECTION_CONTEXT,
      message := some ("inject" ++ injectionContextMessageTail) } rfl

end AngularCore
